import Mathlib

/-!
# Verification of the audio comparison pipeline (`src/server/compare-audio.py`)

Shallow embedding conventions:

* Audio sample buffers are `List ℚ` (exact values of the float32 samples);
  float arithmetic is idealized as exact rational/real arithmetic.  Derived
  quantities that are irrational (square roots, logarithms, FFT magnitudes)
  live in `ℝ`.
* NumPy/SciPy operations that raise on degenerate inputs (`np.max` of a
  zero-size array, integer division by zero, `rfft` of an empty array) are
  modelled with `Option`, `none` being the raising path.
* Python `int(x)` on a nonnegative value truncates: we use `Nat` division or
  `Int.toNat ∘ Int.floor`.  Python's floor division `//` on possibly negative
  integers is `Int.fdiv`.
* Window constants such as `int(0.1 * sample_rate)`: the float literals
  `0.1`, `0.01`, `0.025`, `0.05` are within one ulp of the exact decimals and
  for any realistic sample rate the truncated product equals the exact
  `sample_rate / 10` (etc.); we embed the exact-arithmetic value.
-/

namespace CompareAudio

noncomputable section

/-! ## Numeric helpers shared by several analyzers -/

/-- Arithmetic mean of a list of reals (`np.mean`); all call sites are guarded
so that the list is nonempty. -/
def meanR (l : List ℝ) : ℝ := l.sum / l.length

/-- Embeds `np.max(np.abs(data))`: `none` for an empty array (NumPy raises
`ValueError` on a zero-size reduction). -/
def maxAbs : List ℚ → Option ℚ
  | [] => none
  | x :: xs => some ((xs.map (fun a => |a|)).foldl max |x|)

/-- Embeds `np.diff`: consecutive differences `l[i+1] - l[i]`. -/
def diffQ (l : List ℚ) : List ℚ := List.zipWith (fun b a => b - a) l.tail l

/-- Embeds `10 ** (db / 20)`: linear amplitude of a dB value. -/
def linearOfDb (db : ℚ) : ℝ := (10 : ℝ) ^ ((db : ℝ) / 20)

/-- Embeds `20 * np.log10(max(v, 1e-10))`: the epsilon-floored dB conversion. -/
def dbFloor (x : ℝ) : ℝ := 20 * Real.logb 10 (max x 1e-10)

/-- Embeds `np.percentile(a, q)` with NumPy's default linear interpolation between
the two nearest sorted values. -/
def percentile (l : List ℝ) (q : ℚ) : ℝ :=
  let s := l.mergeSort (fun a b => decide (a ≤ b))
  let h : ℚ := ((l.length - 1 : ℕ) : ℚ) * q / 100
  let lo : ℕ := (Int.floor h).toNat
  let hi : ℕ := min (lo + 1) (l.length - 1)
  s.getD lo 0 + ((h - (lo : ℚ) : ℚ) : ℝ) * (s.getD hi 0 - s.getD lo 0)

/-! ## `scipy.signal.find_peaks`

Faithful model of `_local_maxima_1d` (strict local maxima, plateaus counted
once at their midpoint) followed by the height filter and, when a `distance`
is given, `_select_by_peak_distance` (suppression of lower-priority peaks
strictly closer than `distance` to a kept peak).  The recursions are bounded
by an explicit fuel argument; the scan index increases at every step, so fuel
`x.length` is always sufficient. -/

/-- Plateau scan of `_local_maxima_1d`: from `j`, first index `≥ imax` or with
a value different from `g i`. -/
def plateauEnd {α : Type} [LinearOrder α] (g : ℕ → α) (imax i : ℕ) : ℕ → ℕ → ℕ
  | j, 0 => j
  | j, fuel + 1 => if j < imax ∧ g j = g i then plateauEnd g imax i (j + 1) fuel else j

/-- Main scan of `_local_maxima_1d` over indices `1 ≤ i < imax = n - 1`. -/
def localMaximaAux {α : Type} [LinearOrder α] (g : ℕ → α) (imax : ℕ) : ℕ → ℕ → List ℕ
  | _, 0 => []
  | i, fuel + 1 =>
    if i < imax then
      if g (i - 1) < g i then
        let ia := plateauEnd g imax i (i + 1) fuel
        if g ia < g i then (i + ia - 1) / 2 :: localMaximaAux g imax (ia + 1) fuel
        else localMaximaAux g imax (i + 1) fuel
      else localMaximaAux g imax (i + 1) fuel
    else []

/-- Embeds `_local_maxima_1d(x)`: indices of strict local maxima (`x0` is a dummy
out-of-range default, never selected). -/
def localMaxima {α : Type} [LinearOrder α] (x : List α) (x0 : α) : List ℕ :=
  localMaximaAux (fun i => x.getD i x0) (x.length - 1) 1 x.length

/-- Embeds `find_peaks(x, height=h)`: local maxima whose value is at least `h`. -/
def findPeaksByHeight {α : Type} [LinearOrder α] (x : List α) (h x0 : α) : List ℕ :=
  (localMaxima x x0).filter fun p => decide (h ≤ x.getD p x0)

/-- Embeds `np.argsort` ascending.  NumPy's tie order is unspecified (introsort); we
use a stable merge sort, and no claim depends on the tie order. -/
def argsortAsc {α : Type} [LinearOrder α] (l : List α) (x0 : α) : List ℕ :=
  (List.range l.length).mergeSort fun i j => decide (l.getD i x0 ≤ l.getD j x0)

/-- One step of `_select_by_peak_distance`: if peak `j` is still kept, drop
every other peak strictly closer than `distance`.  (SciPy only scans the
contiguous neighbours of `j`, which is equivalent because the peak indices are
increasing.) -/
def suppressStep (peaks : List ℕ) (distance : ℕ) (keep : List Bool) (j : ℕ) : List Bool :=
  if keep.getD j false then
    (List.range peaks.length).map fun k =>
      if k ≠ j ∧ ((peaks.getD k 0 : ℤ) - (peaks.getD j 0 : ℤ)).natAbs < distance then false
      else keep.getD k false
  else keep

/-- Embeds `_select_by_peak_distance(peaks, priority, distance)`: walk the peaks from
highest to lowest priority, suppressing near neighbours of kept peaks. -/
def selectByPeakDistance (peaks : List ℕ) (priority : List ℚ) (distance : ℕ) : List ℕ :=
  let order := (argsortAsc priority 0).reverse
  let keep := order.foldl (suppressStep peaks distance) (List.replicate peaks.length true)
  (peaks.enum.filter fun pk => keep.getD pk.1 false).map Prod.snd

/-- Embeds `find_peaks(x, height=h, distance=d)` on a rational signal. -/
def findPeaksQ (x : List ℚ) (h : ℚ) (d : ℕ) : List ℕ :=
  let peaks := findPeaksByHeight x h 0
  selectByPeakDistance peaks (peaks.map fun p => x.getD p 0) d

/-! ## Resampler (`resample_if_needed`, lines 148–158) -/

/-- Modelled from the spec: `scipy.signal.resample` (an external library
collaborator, §4.1 "band-limited resampling") returns exactly `num` output
samples; only that sample count is claim-relevant, so the sample values are a
simple nearest-index placeholder. -/
def signalResample (data : List ℚ) (num : ℕ) : List ℚ :=
  (List.range num).map fun i => data.getD (i * data.length / num) 0

/-- Embeds `resample_if_needed(data, sr_orig, sr_target)`.  The new length is
`int(duration * sr_target)`, i.e. `⌊len(data) * sr_target / sr_orig⌋` in exact
arithmetic (`int()` truncates). -/
def resample_if_needed (data : List ℚ) (sr_orig sr_target : ℕ) : List ℚ :=
  if sr_orig = sr_target then data
  else signalResample data (data.length * sr_target / sr_orig)

/-! ## Alignment (`find_first_transient`, `find_alignment_offset_by_transient`,
lines 161–204) -/

/-- Embeds `np.where(np.abs(data) > threshold_linear)[0]`, first hit with its index. -/
def findFirstTransientAux (thr : ℝ) : List ℚ → ℕ → Option ℕ
  | [], _ => none
  | x :: xs, i => if thr < ((|x| : ℚ) : ℝ) then some i else findFirstTransientAux thr xs (i + 1)

/-- Embeds `find_first_transient(data, sample_rate, threshold_db=-40)`; the
`sample_rate` parameter is unused by the source function and omitted here.
Returns `0` when no sample exceeds the threshold. -/
def find_first_transient (data : List ℚ) (threshold_db : ℚ) : ℕ :=
  (findFirstTransientAux (linearOfDb threshold_db) data 0).getD 0

/-- Embeds `np.max(np.abs(x[:sample_rate]))` if `len(x) > sample_rate` else
`np.max(np.abs(x))` (the peak used for the alignment confidence). -/
def peakOfFirstSecond (x : List ℚ) (sample_rate : ℕ) : Option ℚ :=
  if sample_rate < x.length then maxAbs (x.take sample_rate) else maxAbs x

/-- Embeds `find_alignment_offset_by_transient(ref, target, sample_rate=48000,
threshold_db=-40)`: offset is `first_target - first_ref`; confidence is
`min(ref_peak/thr, target_peak/thr, 10.0)/10.0`.  `none` models the
`ValueError` raised by `np.max` over an empty array. -/
def find_alignment_offset_by_transient (ref target : List ℚ) (sample_rate : ℕ)
    (threshold_db : ℚ) : Option (ℤ × ℝ) :=
  let first_ref := find_first_transient ref threshold_db
  let first_target := find_first_transient target threshold_db
  let offset : ℤ := (first_target : ℤ) - (first_ref : ℤ)
  let threshold_linear := linearOfDb threshold_db
  match peakOfFirstSecond ref sample_rate, peakOfFirstSecond target sample_rate with
  | some ref_peak, some target_peak =>
      some (offset,
        min (min ((ref_peak : ℝ) / threshold_linear) ((target_peak : ℝ) / threshold_linear)) 10
          / 10)
  | _, _ => none

/-! ## Amplitude analyzer (`calculate_amplitude_stats`, lines 269–316) -/

structure AmplitudeStats where
  peak_linear : ℝ
  peak_db : ℝ
  rms_linear : ℝ
  rms_db : ℝ
  crest_factor_db : ℝ
  dynamic_range_db : ℝ
  dc_offset : ℝ

/-- Embeds `calculate_amplitude_stats(data, sample_rate, silence_threshold_db=-60)`.
`none` models the two raising paths: `np.max(np.abs(data))` on an empty
buffer (`ValueError`), and the `ZeroDivisionError` from
`len(data) // window_size` when `window_size = int(0.1 * sample_rate) = 0`
(that division is always reached because `len(data) >= 0 = window_size`). -/
def calculate_amplitude_stats (data : List ℚ) (sample_rate : ℕ)
    (silence_threshold_db : ℚ) : Option AmplitudeStats :=
  if data = [] then none
  else if sample_rate / 10 = 0 then none
  else
    let peak : ℚ := (maxAbs data).getD 0
    let peak_db := dbFloor (peak : ℝ)
    let rms : ℝ := Real.sqrt (meanR (data.map fun x : ℚ => ((x : ℝ) ^ 2)))
    let rms_db := dbFloor rms
    let crest_db := peak_db - rms_db
    let dc_offset : ℝ := meanR (data.map fun x : ℚ => (x : ℝ))
    let window_size := sample_rate / 10
    let num_windows := data.length / window_size
    let window_rms : List ℝ :=
      ((List.range num_windows).map fun i =>
        Real.sqrt (meanR (((data.drop (i * window_size)).take window_size).map
          fun x : ℚ => ((x : ℝ) ^ 2)))).filter
        fun w => decide (linearOfDb silence_threshold_db < w)
    let dynamic_range : ℝ :=
      if window_size ≤ data.length then
        if 2 ≤ window_rms.length then
          20 * Real.logb 10 (max (percentile window_rms 90) 1e-10 /
            max (percentile window_rms 10) 1e-10)
        else 0
      else 0
    some { peak_linear := (peak : ℝ), peak_db := peak_db, rms_linear := rms, rms_db := rms_db,
           crest_factor_db := crest_db, dynamic_range_db := dynamic_range,
           dc_offset := dc_offset }

/-! ## Spectral analyzer (`calculate_spectral_stats`, lines 319–379) -/

structure SpectralStats where
  centroid_hz : ℝ
  bandwidth_hz : ℝ
  rolloff_hz : ℝ
  flatness : ℝ
  dominant_freqs : List ℝ

/-- One coefficient of the discrete Fourier transform computed by
`scipy.fft.rfft`. -/
def dftCoeff (x : List ℝ) (k : ℕ) : ℂ :=
  (x.enum.map fun nv =>
    (nv.2 : ℂ) *
      Complex.exp (-2 * (Real.pi : ℂ) * Complex.I * (k : ℂ) * (nv.1 : ℂ) / (x.length : ℂ))).sum

/-- Embeds `np.abs(rfft(x))`: magnitudes of bins `0 .. ⌊N/2⌋`. -/
def rfftMag (x : List ℝ) : List ℝ :=
  (List.range (x.length / 2 + 1)).map fun k => Complex.abs (dftCoeff x k)

/-- Embeds `rfftfreq(N, 1/sample_rate)`: bin center frequencies `k * sample_rate / N`. -/
def rfftFreqs (N sample_rate : ℕ) : List ℝ :=
  (List.range (N / 2 + 1)).map fun k => (k : ℝ) * (sample_rate : ℝ) / (N : ℝ)

/-- Embeds `np.hanning(M)`. -/
def hanning (M : ℕ) : List ℝ :=
  if M = 1 then [1]
  else (List.range M).map fun n : ℕ => 1 / 2 - 1 / 2 * Real.cos (2 * Real.pi * (n : ℝ) / ((M - 1 : ℕ) : ℝ))

/-- The centered analysis segment of `calculate_spectral_stats`
(at most 2 seconds, taken from the middle of the buffer). -/
def spectralSegment (data : List ℚ) (sample_rate : ℕ) : List ℚ :=
  let segment_len := min data.length (sample_rate * 2)
  let start := (data.length - segment_len) / 2
  (data.drop start).take segment_len

/-- The Hann-windowed segment. -/
def spectralWindowed (data : List ℚ) (sample_rate : ℕ) : List ℝ :=
  List.zipWith (fun (s : ℚ) (w : ℝ) => (s : ℝ) * w) (spectralSegment data sample_rate)
    (hanning (spectralSegment data sample_rate).length)

/-- Magnitude spectrum of the windowed segment, DC bin discarded. -/
def spectralSpectrum (data : List ℚ) (sample_rate : ℕ) : List ℝ :=
  (rfftMag (spectralWindowed data sample_rate)).drop 1

/-- Bin frequencies matching `spectralSpectrum`. -/
def spectralFreqs (data : List ℚ) (sample_rate : ℕ) : List ℝ :=
  (rfftFreqs (spectralWindowed data sample_rate).length sample_rate).drop 1

/-- The `total_power` value: sum of squared magnitudes after discarding DC. -/
def spectralTotalPower (data : List ℚ) (sample_rate : ℕ) : ℝ :=
  ((spectralSpectrum data sample_rate).map fun m => m ^ 2).sum

/-- Embeds `calculate_spectral_stats(data, sample_rate)`.  `none` models the
`ValueError` `scipy.fft.rfft` raises on an empty segment.  When the total
power is below `1e-10` all statistics are zero and the dominant-frequency
list is empty. -/
def calculate_spectral_stats (data : List ℚ) (sample_rate : ℕ) : Option SpectralStats :=
  if (spectralSegment data sample_rate).length = 0 then none
  else
    let spectrum := spectralSpectrum data sample_rate
    let freqs := spectralFreqs data sample_rate
    let power := spectrum.map fun m => m ^ 2
    let total_power := power.sum
    if total_power < 1e-10 then
      some { centroid_hz := 0, bandwidth_hz := 0, rolloff_hz := 0, flatness := 0,
             dominant_freqs := [] }
    else
      let centroid := (List.zipWith (fun f p => f * p) freqs power).sum / total_power
      let bandwidth :=
        Real.sqrt ((List.zipWith (fun f p => (f - centroid) ^ 2 * p) freqs power).sum
          / total_power)
      -- np.searchsorted on the nondecreasing cumulative sums (side='left')
      let cums := (power.scanl (· + ·) 0).tail
      let rolloff_idx := cums.countP fun c => decide (c < 0.85 * total_power)
      let rolloff := freqs.getD (min rolloff_idx (freqs.length - 1)) 0
      let geometric_mean := Real.exp (meanR (spectrum.map fun m => Real.log (m + 1e-10)))
      let flatness := geometric_mean / (meanR spectrum + 1e-10)
      -- np.max(spectrum): magnitudes are nonnegative and the list is nonempty
      -- here, so folding max from 0 is the true maximum
      let peak_indices := findPeaksByHeight spectrum ((spectrum.foldl max 0) * (1 / 10)) 0
      let peak_freqs := peak_indices.map fun i => freqs.getD i 0
      let peak_mags := peak_indices.map fun i => spectrum.getD i 0
      let sorted_idx := ((argsortAsc peak_mags 0).reverse).take 5
      let dominant_freqs :=
        (sorted_idx.filter fun i => decide (i < peak_freqs.length)).map fun i =>
          peak_freqs.getD i 0
      some { centroid_hz := centroid, bandwidth_hz := bandwidth, rolloff_hz := rolloff,
             flatness := flatness, dominant_freqs := dominant_freqs }

/-! ## Envelope extraction (`calculate_envelope`, lines 382–403) -/

/-- SciPy `reflect` boundary indexing (`(d c b a | a b c d | d c b a)`); a
single reflection (clamped) suffices for every window used here, where the
window never exceeds twice the signal length. -/
def reflectIdx (n : ℕ) (j : ℤ) : ℕ :=
  if j < 0 then min (n - 1) (-1 - j).toNat
  else if j < (n : ℤ) then j.toNat
  else n - 1 - min (n - 1) (j - n).toNat

/-- Embeds `scipy.ndimage.maximum_filter1d(l, size=w)` with the default centered
origin: window `[i - w/2, i - w/2 + w - 1]`.  Our only input is a rectified
(nonnegative) signal, so folding max from 0 is the window maximum. -/
def maximum_filter1d (l : List ℚ) (w : ℕ) : List ℚ :=
  (List.range l.length).map fun i : ℕ =>
    ((List.range w).map fun k : ℕ =>
      l.getD (reflectIdx l.length ((i : ℤ) + (k : ℤ) - ((w / 2 : ℕ) : ℤ))) 0).foldr max 0

/-- Embeds `scipy.ndimage.uniform_filter1d(l, size=w)`: mean over the same window. -/
def uniform_filter1d (l : List ℚ) (w : ℕ) : List ℚ :=
  (List.range l.length).map fun i : ℕ =>
    ((List.range w).map fun k : ℕ =>
      l.getD (reflectIdx l.length ((i : ℤ) + (k : ℤ) - ((w / 2 : ℕ) : ℤ))) 0).sum / (w : ℚ)

/-- Python `l[::w]`. -/
def decimate (l : List ℚ) (w : ℕ) : List ℚ :=
  (List.range ((l.length + w - 1) / w)).map fun i => l.getD (i * w) 0

/-- Embeds `calculate_envelope(data, sample_rate, window_ms=10)`: rectify, sliding
maximum, sliding mean, then decimate by the window stride.  The `window_ms`
parameter defaults to 10 in the source signature (line 383); the comparison
pipeline (lines 766–767) calls it with that default. -/
def calculate_envelope (data : List ℚ) (sample_rate : ℕ) (window_ms : ℚ) : List ℚ :=
  let window_samples := (Int.floor (window_ms * sample_rate / 1000)).toNat
  let envelope := maximum_filter1d (data.map fun x => |x|) window_samples
  let envelope := uniform_filter1d envelope window_samples
  decimate envelope window_samples

/-! ## Transient detection (`detect_transients`, lines 478–531) -/

structure TimingStats where
  first_transient_ms : ℝ
  num_transients : ℕ
  transient_times_ms : List ℚ

/-- Embeds `hop_length = int(0.01 * sample_rate)`. -/
def hopLength (sample_rate : ℕ) : ℕ := sample_rate / 100

/-- Embeds `window_length = int(0.025 * sample_rate)`. -/
def windowLength (sample_rate : ℕ) : ℕ := sample_rate / 40

/-- Embeds `num_frames = (len(data) - window_length) // hop_length + 1`
(Python floor division on possibly negative integers). -/
def numFrames (data : List ℚ) (sample_rate : ℕ) : ℤ :=
  Int.fdiv ((data.length : ℤ) - (windowLength sample_rate : ℤ)) (hopLength sample_rate : ℤ) + 1

/-- Per-frame energies (sum of squared samples of each 25 ms window). -/
def frameEnergies (data : List ℚ) (sample_rate : ℕ) : List ℚ :=
  (List.range (numFrames data sample_rate).toNat).map fun i =>
    (((data.drop (i * hopLength sample_rate)).take (windowLength sample_rate)).map
      fun x => x ^ 2).sum

/-- Onset strength: rectified energy differences, normalized by the maximum
when it is positive (`np.max` of the rectified list is the fold from 0). -/
def onsetStrength (data : List ℚ) (sample_rate : ℕ) : List ℚ :=
  let onset := (diffQ (frameEnergies data sample_rate)).map fun x => max x 0
  let m := onset.foldl max 0
  if 0 < m then onset.map fun x => x / m else onset

/-- Embeds `min_distance = int(0.05 * sample_rate / hop_length)`. -/
def minDistance (sample_rate : ℕ) : ℕ := sample_rate / (20 * hopLength sample_rate)

/-- Detected onset peaks:
`find_peaks(onset_strength, height=0.1, distance=max(1, min_distance))`. -/
def onsetPeaks (data : List ℚ) (sample_rate : ℕ) : List ℕ :=
  findPeaksQ (onsetStrength data sample_rate) (1 / 10) (max 1 (minDistance sample_rate))

/-- All transient times in ms, `(p * hop_length / sample_rate) * 1000`. -/
def transientTimesMs (data : List ℚ) (sample_rate : ℕ) : List ℚ :=
  (onsetPeaks data sample_rate).map fun p =>
    ((p * hopLength sample_rate : ℕ) : ℚ) / (sample_rate : ℚ) * 1000

/-- Time of the first raw sample above the linear threshold, in ms
(`0` when none exists). -/
def firstTransientTimeMs (data : List ℚ) (sample_rate : ℕ) (threshold_db : ℚ) : ℝ :=
  match findFirstTransientAux (linearOfDb threshold_db) data 0 with
  | some i => (i : ℝ) / (sample_rate : ℝ) * 1000
  | none => 0

/-- Embeds `detect_transients(data, sample_rate, threshold_db=-40)`.  `none` models
the raising paths: `ZeroDivisionError` when `hop_length = 0`, and the
`ValueError` from `np.max` on the empty `onset_strength` when there is
exactly one frame. -/
def detect_transients (data : List ℚ) (sample_rate : ℕ) (threshold_db : ℚ) :
    Option TimingStats :=
  if hopLength sample_rate = 0 then none
  else if numFrames data sample_rate ≤ 0 then
    some { first_transient_ms := 0, num_transients := 0, transient_times_ms := [] }
  else if diffQ (frameEnergies data sample_rate) = [] then none
  else
    some { first_transient_ms := firstTransientTimeMs data sample_rate threshold_db,
           num_transients := (onsetPeaks data sample_rate).length,
           transient_times_ms := (transientTimesMs data sample_rate).take 20 }

/-! ## Pearson correlation (`calculate_correlation`, lines 534–556, and
`calculate_spectral_correlation`, lines 559–573) -/

/-- Embeds `calculate_correlation(a, b)`: truncate to the shorter length, `0` for
empty input, standard Pearson correlation with the `den < 1e-10 ⇒ 0` floor. -/
def calculate_correlation (a b : List ℝ) : ℝ :=
  let n := min a.length b.length
  let a' := a.take n
  let b' := b.take n
  if a'.length = 0 then 0
  else
    let ac := a'.map fun x => x - meanR a'
    let bc := b'.map fun x => x - meanR b'
    let num := (List.zipWith (fun x y => x * y) ac bc).sum
    let den := Real.sqrt ((ac.map fun x => x ^ 2).sum * (bc.map fun x => x ^ 2).sum)
    if den < 1e-10 then 0 else num / den

/-- Embeds `calculate_spectral_correlation(data1, data2, sample_rate)`: Pearson
correlation of the magnitude spectra of (at most) 1-second head segments.
(The raising branch of `rfft` on empty input is not modelled here; no claim
depends on this function's degenerate case.) -/
def calculate_spectral_correlation (data1 data2 : List ℚ) (sample_rate : ℕ) : ℝ :=
  let min_len := min data1.length data2.length
  let segment_len := min min_len sample_rate
  let spec1 := rfftMag ((data1.take segment_len).map fun x : ℚ => (x : ℝ))
  let spec2 := rfftMag ((data2.take segment_len).map fun x : ℚ => (x : ℝ))
  calculate_correlation spec1 spec2

/-! ## Comparison result record and similarity scorer
(`ComparisonResult`, `calculate_similarity_score`, lines 100–134, 576–623) -/

/-- The numeric fields of the source's `ComparisonResult` record.  The file
name strings, the `issues` list and the derived `similarity_score` field
(computed from the rest, after construction) are omitted. -/
structure ComparisonResult where
  sample_rate : ℕ
  duration1_s : ℝ
  duration2_s : ℝ
  aligned : Bool
  alignment_offset_ms : ℝ
  alignment_correlation : ℝ
  amplitude1 : AmplitudeStats
  amplitude2 : AmplitudeStats
  spectral1 : SpectralStats
  spectral2 : SpectralStats
  timing1 : TimingStats
  timing2 : TimingStats
  peak_diff_db : ℝ
  rms_diff_db : ℝ
  spectral_centroid_diff_hz : ℝ
  waveform_correlation : ℝ
  envelope_correlation : ℝ
  spectral_correlation : ℝ

/-- Embeds `calculate_similarity_score(result)`: the score/weight lists are built
exactly as in the source and combined as `weighted_sum / total_weight`. -/
def calculate_similarity_score (result : ComparisonResult) : ℝ :=
  let scores : List ℝ :=
    [max 0 result.waveform_correlation * 100,
     max 0 result.envelope_correlation * 100,
     max 0 result.spectral_correlation * 100,
     max 0 (100 - |result.rms_diff_db| * (100 / 12)),
     max 0 (100 - |result.peak_diff_db| * (100 / 12)),
     max 0 (100 - |result.spectral_centroid_diff_hz| * (100 / 1000))] ++
    (if result.aligned then [max 0 result.alignment_correlation * 100] else [])
  let weights : List ℝ :=
    [3, 2, 2, 1.5, 1, 1] ++ (if result.aligned then [0.5] else [])
  let total_weight := weights.sum
  let weighted_sum := ((scores.zip weights).map fun sw => sw.1 * sw.2).sum
  weighted_sum / total_weight

/-! ## The buffer-preparation stage of `compare_audio` (lines 699–751) -/

/-- Output of the alignment / trim / normalize stage: `data1`, `data2` are
the buffers subsequently fed to the per-file analyzers (lines 753–761);
`data1_aligned`, `data2_aligned` the aligned views fed to the correlation
stage (lines 763–772). -/
structure PipelineState where
  data1 : List ℚ
  data2 : List ℚ
  data1_aligned : List ℚ
  data2_aligned : List ℚ
  offset : ℤ
  align_corr : ℝ

/-- The normalize step (lines 744–751); `none` models `np.max` raising on an
empty aligned view. -/
def normalizeStep (d1 d2 a1 a2 : List ℚ) (offset : ℤ) (ac : ℝ) (normalize : Bool) :
    Option PipelineState :=
  if normalize then
    match maxAbs a1, maxAbs a2 with
    | some peak1, some peak2 =>
        some { data1 := d1, data2 := d2,
               data1_aligned := if (1e-10 : ℚ) < peak1 then a1.map (fun x => x / peak1) else a1,
               data2_aligned := if (1e-10 : ℚ) < peak2 then a2.map (fun x => x / peak2) else a2,
               offset := offset, align_corr := ac }
    | _, _ => none
  else
    some { data1 := d1, data2 := d2, data1_aligned := a1, data2_aligned := a2,
           offset := offset, align_corr := ac }

/-- Embeds `compare_audio`'s buffer-preparation stage (lines 699–751).  With `align`
the transient-alignment call receives `silence_threshold_db` as its
`threshold_db` (line 702).  With `trim` and a positive offset, `data2` — the
buffer later used for file 2's per-file statistics — is replaced by
`data2[offset : offset + len(data1)]` (line 732). -/
def comparePipeline (data1 data2 : List ℚ) (sample_rate : ℕ)
    (align trim normalize : Bool) (silence_threshold_db : ℚ) : Option PipelineState :=
  if align then
    match find_alignment_offset_by_transient data1 data2 sample_rate silence_threshold_db with
    | none => none
    | some (offset, align_corr) =>
      let pair : List ℚ × List ℚ :=
        if 0 < offset then (data1, data2.drop offset.toNat)
        else if offset < 0 then (data1.drop (-offset).toNat, data2)
        else (data1, data2)
      let min_len := min pair.1.length pair.2.length
      let d1a := pair.1.take min_len
      let d2a := pair.2.take min_len
      if trim then
        let target_len := data1.length
        if 0 < offset then
          normalizeStep data1 ((data2.drop offset.toNat).take target_len)
            (d1a.take target_len) (d2a.take target_len) offset align_corr normalize
        else
          normalizeStep data1 data2 (d1a.take target_len) (d2a.take target_len)
            offset align_corr normalize
      else normalizeStep data1 data2 d1a d2a offset align_corr normalize
  else
    let min_len := min data1.length data2.length
    normalizeStep data1 data2 (data1.take min_len) (data2.take min_len) 0 0 normalize

/-- The correlation stage of `compare_audio` (lines 763–772): waveform
correlation on the aligned views, envelope correlation on their envelopes
(default 10 ms window), spectral correlation. -/
def compareCorrelations (st : PipelineState) (sample_rate : ℕ) : ℝ × ℝ × ℝ :=
  (calculate_correlation (st.data1_aligned.map fun x : ℚ => (x : ℝ))
     (st.data2_aligned.map fun x : ℚ => (x : ℝ)),
   calculate_correlation ((calculate_envelope st.data1_aligned sample_rate 10).map fun x : ℚ => (x : ℝ))
     ((calculate_envelope st.data2_aligned sample_rate 10).map fun x : ℚ => (x : ℝ)),
   calculate_spectral_correlation st.data1_aligned st.data2_aligned sample_rate)

/-- The per-file statistics stage of `compare_audio` (lines 753–761): the
amplitude, spectral and transient analyzers all run on `st.data1` and
`st.data2`. -/
def comparePerFileStats (st : PipelineState) (sample_rate : ℕ) (silence_threshold_db : ℚ) :
    (Option AmplitudeStats × Option AmplitudeStats) ×
    (Option SpectralStats × Option SpectralStats) ×
    (Option TimingStats × Option TimingStats) :=
  ((calculate_amplitude_stats st.data1 sample_rate silence_threshold_db,
    calculate_amplitude_stats st.data2 sample_rate silence_threshold_db),
   (calculate_spectral_stats st.data1 sample_rate,
    calculate_spectral_stats st.data2 sample_rate),
   (detect_transients st.data1 sample_rate silence_threshold_db,
    detect_transients st.data2 sample_rate silence_threshold_db))

/-! ## Helper lemmas -/

/-- The linear value of the −40 dB default: `10 ** (-40/20) = 1/100`. -/
lemma linearOfDb_neg40 : linearOfDb (-40) = 1 / 100 := by
  unfold linearOfDb
  have h : (((-40 : ℚ) : ℝ) / 20) = ((-2 : ℤ) : ℝ) := by norm_num
  rw [h, Real.rpow_intCast]
  norm_num

/-- The linear value of the −60 dB default silence threshold:
`10 ** (-60/20) = 1/1000`. -/
lemma linearOfDb_neg60 : linearOfDb (-60) = 1 / 1000 := by
  unfold linearOfDb
  have h : (((-60 : ℚ) : ℝ) / 20) = ((-3 : ℤ) : ℝ) := by norm_num
  rw [h, Real.rpow_intCast]
  norm_num

/-- Any dB value has a positive linear amplitude. -/
lemma linearOfDb_pos (db : ℚ) : 0 < linearOfDb db :=
  Real.rpow_pos_of_pos (by norm_num) _

/-- Sum of squares of the mean-centered values: this is what sits under the
square root in the Pearson denominator on the diagonal. -/
def centeredSumSq (a : List ℝ) : ℝ :=
  ((a.map fun x => x - meanR a).map fun x => x ^ 2).sum

lemma sum_sq_nonneg (l : List ℝ) : 0 ≤ (l.map fun x => x ^ 2).sum := by
  apply List.sum_nonneg
  intro x hx
  obtain ⟨y, _, rfl⟩ := List.mem_map.mp hx
  exact sq_nonneg y

lemma centeredSumSq_nonneg (a : List ℝ) : 0 ≤ centeredSumSq a :=
  sum_sq_nonneg _

lemma zipWith_mul_self_sum (l : List ℝ) :
    (List.zipWith (fun x y => x * y) l l).sum = (l.map fun x => x ^ 2).sum := by
  induction l with
  | nil => simp
  | cons x xs ih =>
    simp only [List.zipWith_cons_cons, List.map_cons, List.sum_cons, ih]
    ring

lemma zipWith_mul_neg_sum (l : List ℝ) :
    (List.zipWith (fun x y => x * y) l (l.map fun x => -x)).sum
      = -((l.map fun x => x ^ 2).sum) := by
  induction l with
  | nil => simp
  | cons x xs ih => simp [ih]; ring

lemma sum_map_neg (l : List ℝ) : (l.map fun x => -x).sum = -l.sum := by
  induction l with
  | nil => simp
  | cons x xs ih => simp [ih]; ring

lemma meanR_map_neg (a : List ℝ) : meanR (a.map fun x => -x) = -meanR a := by
  simp [meanR, sum_map_neg, neg_div]

lemma sum_sq_map_neg (l : List ℝ) :
    ((l.map fun x => -x).map fun x => x ^ 2).sum = (l.map fun x => x ^ 2).sum := by
  rw [List.map_map]
  congr 1
  apply List.map_congr_left
  intro x _
  simp

/-- Pearson correlation of a list with itself is 1 whenever the denominator
floor is cleared. -/
lemma pearson_self (a : List ℝ) (h : (1e-10 : ℝ) ≤ centeredSumSq a) :
    calculate_correlation a a = 1 := by
  have hS : centeredSumSq a = ((a.map fun x => x - meanR a).map fun x => x ^ 2).sum := rfl
  have hS0 : (0 : ℝ) < centeredSumSq a := lt_of_lt_of_le (by norm_num) h
  have hne : a ≠ [] := by
    rintro rfl
    simp [centeredSumSq, meanR] at h
    norm_num at h
  rw [hS] at h hS0
  unfold calculate_correlation
  simp only [min_self, List.take_length]
  rw [if_neg (by simpa [List.length_eq_zero] using hne)]
  rw [zipWith_mul_self_sum, Real.sqrt_mul_self (sum_sq_nonneg _),
    if_neg (not_lt.mpr h)]
  exact div_self (ne_of_gt hS0)

/-- Pearson correlation of a list with its exact negation is −1 whenever the
denominator floor is cleared. -/
lemma pearson_neg (a : List ℝ) (h : (1e-10 : ℝ) ≤ centeredSumSq a) :
    calculate_correlation a (a.map fun x => -x) = -1 := by
  have hS : centeredSumSq a = ((a.map fun x => x - meanR a).map fun x => x ^ 2).sum := rfl
  have hS0 : (0 : ℝ) < centeredSumSq a := lt_of_lt_of_le (by norm_num) h
  have hne : a ≠ [] := by
    rintro rfl
    simp [centeredSumSq, meanR] at h
    norm_num at h
  rw [hS] at h hS0
  unfold calculate_correlation
  simp only [List.length_map, min_self, List.take_length]
  have htake : (a.map fun x => -x).take a.length = a.map fun x => -x := by
    apply List.take_of_length_le
    simp
  rw [htake]
  rw [if_neg (by simpa [List.length_eq_zero] using hne)]
  have hbc : (a.map fun x => -x).map (fun x => x - meanR (a.map fun y => -y)) =
      (a.map fun x => x - meanR a).map fun y => -y := by
    rw [meanR_map_neg, List.map_map, List.map_map]
    apply List.map_congr_left
    intro x _
    simp only [Function.comp]
    ring
  rw [hbc, zipWith_mul_neg_sum, sum_sq_map_neg,
    Real.sqrt_mul_self (sum_sq_nonneg _), if_neg (not_lt.mpr h), neg_div,
    div_self (ne_of_gt hS0)]

/-! ## Claim C2 (code_bug): the amplitude analyzer on the empty buffer -/

/-- C2 — The claim (and spec §3, §7) requires that analyzing an empty
sample sequence is never fatal; in the code, `calculate_amplitude_stats`
immediately evaluates `np.max(np.abs(data))`, which raises `ValueError` on a
zero-size array.  This theorem evaluates the embedded analyzer at the failing
input: for every sample rate and silence threshold, the empty buffer takes
the raising path (`none`). -/
theorem amplitude_stats_empty_buffer_fatal (sample_rate : ℕ) (silence_threshold_db : ℚ) :
    calculate_amplitude_stats [] sample_rate silence_threshold_db = none := by
  simp [calculate_amplitude_stats]

/-! ## Claim C4 (corrected): resampler no-op path and output length -/

/-- C4 counterexample — The claim says the resampled length is
`round(duration_seconds * target_rate)`; for a 1-sample buffer resampled from
3 Hz to 5 Hz the code produces `int(5/3) = 1` sample while
`round(5/3) = 2`. -/
theorem resample_length_not_round :
    ((resample_if_needed [(1 : ℚ)] 3 5).length : ℤ) ≠
      round ((([(1 : ℚ)].length : ℚ) / 3) * 5) := by
  have h1 : (resample_if_needed [(1 : ℚ)] 3 5).length = 1 := by
    norm_num [resample_if_needed, signalResample]
  rw [h1]
  norm_num [round_eq, List.length_singleton]

/-- C4 (amended) — Resampling with equal rates returns the input
unchanged; otherwise the output sample count is
`⌊len(data) * target_rate / orig_rate⌋` (truncation, as produced by
`int(duration * sr_target)`), not `round(...)`. -/
theorem resample_if_needed_spec (data : List ℚ) (sr_orig sr_target : ℕ)
    (h : 0 < sr_orig) :
    (sr_orig = sr_target → resample_if_needed data sr_orig sr_target = data) ∧
    (sr_orig ≠ sr_target →
      (resample_if_needed data sr_orig sr_target).length =
        data.length * sr_target / sr_orig) := by
  constructor
  · intro he
    simp [resample_if_needed, he]
  · intro he
    simp [resample_if_needed, he, signalResample]

/-- Witness for C4's amended theorem at concrete inputs (no-op at 3 → 3 Hz;
truncated length for `[1]` at 3 → 5 Hz). -/
theorem resample_if_needed_spec_witness :
    resample_if_needed [(1 : ℚ)] 3 3 = [(1 : ℚ)] ∧
      (resample_if_needed [(1 : ℚ)] 3 5).length = 1 := by
  constructor
  · exact (resample_if_needed_spec [(1 : ℚ)] 3 3 (by norm_num)).1 rfl
  · have h := (resample_if_needed_spec [(1 : ℚ)] 3 5 (by norm_num)).2 (by norm_num)
    simpa using h

/-! ## Claim C6 (confirmed): Pearson identities -/

/-- C6 — For every sequence whose Pearson denominator clears the `1e-10`
floor (the denominator for the pairs `(a,a)` and `(a,-a)` is the centered sum
of squares), the correlation of `a` with itself is `1`, with its exact
negation is `-1`, and the correlation of empty input is `0`. -/
theorem correlation_self_neg_empty (a : List ℝ)
    (h : (1e-10 : ℝ) ≤ centeredSumSq a) :
    calculate_correlation a a = 1 ∧
      calculate_correlation a (a.map fun x => -x) = -1 ∧
      calculate_correlation [] [] = 0 :=
  ⟨pearson_self a h, pearson_neg a h, by simp [calculate_correlation]⟩

/-- Witness for C6 at the concrete non-constant sequence `[0, 1]`. -/
theorem correlation_self_neg_empty_witness :
    calculate_correlation [(0 : ℝ), 1] [(0 : ℝ), 1] = 1 ∧
      calculate_correlation [(0 : ℝ), 1] ([(0 : ℝ), 1].map fun x => -x) = -1 ∧
      calculate_correlation [] [] = 0 :=
  correlation_self_neg_empty [0, 1] (by
    simp [centeredSumSq, meanR]
    norm_num)

/-! ## Claim C9 (confirmed): similarity scorer closed form -/

/-- C9 — The similarity score is the weighted average of exactly the
stated component scores: waveform/envelope/spectral correlations clamped to
`≥ 0` and scaled by 100 (weights 3, 2, 2), the RMS- and peak-difference
scores `max(0, 100 − |diff|·(100/12))` (weights 1.5, 1), the centroid score
`max(0, 100 − |diff|·(100/1000))` (weight 1), plus — exactly when alignment
was performed — the clamped alignment correlation × 100 at weight 0.5; the
result is the weighted sum divided by the sum of the weights actually applied
(11 with alignment, 10.5 without). -/
theorem similarity_score_weighted_average (result : ComparisonResult) :
    calculate_similarity_score result =
      (3 * (max 0 result.waveform_correlation * 100) +
        2 * (max 0 result.envelope_correlation * 100) +
        2 * (max 0 result.spectral_correlation * 100) +
        1.5 * max 0 (100 - |result.rms_diff_db| * (100 / 12)) +
        1 * max 0 (100 - |result.peak_diff_db| * (100 / 12)) +
        1 * max 0 (100 - |result.spectral_centroid_diff_hz| * (100 / 1000)) +
        (if result.aligned then (0.5 : ℝ) * (max 0 result.alignment_correlation * 100)
          else 0)) /
      (if result.aligned then (11 : ℝ) else 10.5) := by
  unfold calculate_similarity_score
  cases hr : result.aligned <;>
    · simp only [hr, if_true, if_false, Bool.false_eq_true, List.append_nil, List.cons_append,
        List.nil_append, List.zip_cons_cons, List.zip_nil_right, List.zip_nil_left,
        List.map_cons, List.map_nil, List.sum_cons, List.sum_nil]
      norm_num
      ring_nf

/-! ## Claim C10 (confirmed): transient count uncapped, times capped at 20 -/

/-- Embeds `find_peaks` of the empty signal finds nothing. -/
lemma findPeaksQ_nil (h : ℚ) (d : ℕ) : findPeaksQ [] h d = [] := by
  unfold findPeaksQ findPeaksByHeight localMaxima localMaximaAux selectByPeakDistance
    argsortAsc
  simp

/-- C10 — For every buffer, the reported `num_transients` is the full
(uncapped) number of detected onset peaks, while the reported time list is
the full time list truncated to its first 20 entries; hence its length is
`min num_transients 20` (strictly less than `num_transients` as soon as more
than 20 transients are detected). -/
theorem detect_transients_count_uncapped (data : List ℚ) (sample_rate : ℕ)
    (threshold_db : ℚ) :
    (detect_transients data sample_rate threshold_db).map
        (fun t => (t.num_transients, t.transient_times_ms, t.transient_times_ms.length)) =
      (detect_transients data sample_rate threshold_db).map
        (fun _ => ((onsetPeaks data sample_rate).length,
          (transientTimesMs data sample_rate).take 20,
          min (onsetPeaks data sample_rate).length 20)) := by
  unfold detect_transients
  by_cases h1 : hopLength sample_rate = 0
  · simp [h1]
  by_cases h2 : numFrames data sample_rate ≤ 0
  · have hE : frameEnergies data sample_rate = [] := by
      unfold frameEnergies
      rw [Int.toNat_of_nonpos h2]
      simp
    have hS : onsetStrength data sample_rate = [] := by
      unfold onsetStrength
      rw [hE]
      simp [diffQ]
    have hP : onsetPeaks data sample_rate = [] := by
      unfold onsetPeaks
      rw [hS, findPeaksQ_nil]
    have hT : transientTimesMs data sample_rate = [] := by
      unfold transientTimesMs
      rw [hP]
      rfl
    simp [h1, h2, hP, hT]
  · by_cases h3 : diffQ (frameEnergies data sample_rate) = []
    · simp [h1, h2, h3]
    · simp only [h1, h2, h3, if_false, ite_false, Option.map_some]
      refine congrArg some ?_
      refine Prod.ext rfl (Prod.ext rfl ?_)
      simp [transientTimesMs, List.length_take, min_comm]

/-! ## Claim C8 (confirmed): transient alignment recovers a prepended delay -/

lemma findFirstTransientAux_shift (thr : ℝ) :
    ∀ (x : List ℚ) (i : ℕ),
      findFirstTransientAux thr x i = (findFirstTransientAux thr x 0).map (· + i)
  | [], i => by simp [findFirstTransientAux]
  | y :: ys, i => by
    by_cases hy : thr < ((|y| : ℚ) : ℝ)
    · simp only [findFirstTransientAux, if_pos hy]
      simp
    · simp only [findFirstTransientAux, if_neg hy]
      rw [findFirstTransientAux_shift thr ys (i + 1), findFirstTransientAux_shift thr ys (0 + 1)]
      cases findFirstTransientAux thr ys 0 <;> simp <;> omega

lemma findFirstTransientAux_isSome (thr : ℝ) :
    ∀ (x : List ℚ) (i : ℕ), (∃ a ∈ x, thr < ((|a| : ℚ) : ℝ)) →
      (findFirstTransientAux thr x i).isSome
  | [], _, hx => by simp at hx
  | y :: ys, i, hx => by
    by_cases hy : thr < ((|y| : ℚ) : ℝ)
    · simp only [findFirstTransientAux, if_pos hy]
      rfl
    · obtain ⟨a, ha, hlt⟩ := hx
      rcases List.mem_cons.mp ha with rfl | ha'
      · exact absurd hlt hy
      · simp only [findFirstTransientAux, if_neg hy]
        exact findFirstTransientAux_isSome thr ys (i + 1) ⟨a, ha', hlt⟩

lemma findFirstTransientAux_replicate_zero (thr : ℝ) (hthr : 0 < thr) (x : List ℚ) :
    ∀ k : ℕ, findFirstTransientAux thr (List.replicate k 0 ++ x) 0
      = (findFirstTransientAux thr x 0).map (· + k)
  | 0 => by
    cases h : findFirstTransientAux thr x 0 <;> simp [h]
  | n + 1 => by
    rw [List.replicate_succ, List.cons_append]
    simp only [findFirstTransientAux]
    rw [if_neg (by simpa using not_lt.mpr hthr.le)]
    rw [findFirstTransientAux_shift thr (List.replicate n 0 ++ x) (0 + 1),
      findFirstTransientAux_replicate_zero thr hthr x n]
    cases findFirstTransientAux thr x 0 <;> simp <;> omega

/-- Prepending `k` samples of silence shifts the first transient by `k`
(the zeros never exceed the strictly positive linear threshold). -/
lemma find_first_transient_prepend (x : List ℚ) (db : ℚ) (k : ℕ)
    (hx : ∃ a ∈ x, linearOfDb db < ((|a| : ℚ) : ℝ)) :
    find_first_transient (List.replicate k 0 ++ x) db = k + find_first_transient x db := by
  unfold find_first_transient
  rw [findFirstTransientAux_replicate_zero _ (linearOfDb_pos db)]
  obtain ⟨j, hj⟩ := Option.isSome_iff_exists.mp
    (findFirstTransientAux_isSome (linearOfDb db) x 0 hx)
  rw [hj]
  simp [Nat.add_comm]

lemma maxAbs_isSome (l : List ℚ) (h : l ≠ []) : (maxAbs l).isSome := by
  cases l with
  | nil => exact absurd rfl h
  | cons x xs => simp [maxAbs]

lemma peakOfFirstSecond_isSome (l : List ℚ) (sample_rate : ℕ) (hl : l ≠ [])
    (hsr : 0 < sample_rate) : (peakOfFirstSecond l sample_rate).isSome := by
  unfold peakOfFirstSecond
  by_cases hc : sample_rate < l.length
  · rw [if_pos hc]
    apply maxAbs_isSome
    intro hnil
    have hlen : (l.take sample_rate).length = 0 := by rw [hnil]; rfl
    rw [List.length_take] at hlen
    rcases Nat.min_eq_zero_iff.mp hlen with h0 | h0
    · omega
    · exact hl (List.length_eq_zero.mp h0)
  · rw [if_neg hc]
    exact maxAbs_isSome l hl

/-- C8 — Aligning a signal containing at least one above-threshold sample
(as reference) against a copy of itself delayed by exactly `k` prepended
silent samples (as target) yields, under the transient strategy, an offset of
exactly `k`. -/
theorem alignment_recovers_delay (x : List ℚ) (threshold_db : ℚ) (k sample_rate : ℕ)
    (hsr : 0 < sample_rate)
    (hx : ∃ a ∈ x, linearOfDb threshold_db < ((|a| : ℚ) : ℝ)) :
    (find_alignment_offset_by_transient x (List.replicate k 0 ++ x) sample_rate
        threshold_db).map Prod.fst = some (k : ℤ) := by
  have hxne : x ≠ [] := by rintro rfl; simp at hx
  have htne : List.replicate k 0 ++ x ≠ [] := by simp [hxne]
  obtain ⟨rp, hrp⟩ := Option.isSome_iff_exists.mp
    (peakOfFirstSecond_isSome x sample_rate hxne hsr)
  obtain ⟨tp, htp⟩ := Option.isSome_iff_exists.mp
    (peakOfFirstSecond_isSome _ sample_rate htne hsr)
  unfold find_alignment_offset_by_transient
  rw [hrp, htp, find_first_transient_prepend x threshold_db k hx]
  refine congrArg some ?_
  push_cast
  ring

/-- Witness for C8: a single unit impulse, delayed by 2 samples, recovers
offset 2 at the −40 dB default threshold. -/
theorem alignment_recovers_delay_witness :
    (find_alignment_offset_by_transient [(1 : ℚ)] (List.replicate 2 0 ++ [(1 : ℚ)]) 1
        (-40)).map Prod.fst = some 2 :=
  alignment_recovers_delay [(1 : ℚ)] (-40) 2 1 (by norm_num)
    ⟨1, by simp, by rw [linearOfDb_neg40]; norm_num⟩

/-! ## Claim C7 (confirmed): spectral analyzer on sub-epsilon power -/

/-- C7 — For every nonempty buffer (at a positive sample rate) whose
analyzed segment has total spectral power below `1e-10` after discarding the
DC bin, the spectral analyzer returns the all-zero `SpectralStats` with an
empty dominant-frequency list (and in particular takes none of the dividing
branches). -/
theorem spectral_stats_zero_power (data : List ℚ) (sample_rate : ℕ)
    (hne : data ≠ []) (hsr : 0 < sample_rate)
    (hp : spectralTotalPower data sample_rate < 1e-10) :
    calculate_spectral_stats data sample_rate =
      some { centroid_hz := 0, bandwidth_hz := 0, rolloff_hz := 0, flatness := 0,
             dominant_freqs := [] } := by
  have hlen : 0 < data.length := List.length_pos.mpr hne
  have hstart : (data.length - min data.length (sample_rate * 2)) / 2
      ≤ data.length - min data.length (sample_rate * 2) := Nat.div_le_self _ _
  have hseg : ¬ (spectralSegment data sample_rate).length = 0 := by
    unfold spectralSegment
    simp only [List.length_take, List.length_drop]
    omega
  unfold spectralTotalPower at hp
  simp [calculate_spectral_stats, hseg, hp]

lemma dftCoeff_replicate_zero (n k : ℕ) : dftCoeff (List.replicate n (0 : ℝ)) k = 0 := by
  unfold dftCoeff
  apply List.sum_eq_zero
  intro z hz
  obtain ⟨nv, hnv, rfl⟩ := List.mem_map.mp hz
  have h2 : nv.2 ∈ List.replicate n (0 : ℝ) :=
    List.getElem?_mem (List.mem_enum_iff_getElem?.mp hnv)
  rw [List.eq_of_mem_replicate h2]
  simp

lemma rfftMag_replicate_zero (n : ℕ) :
    rfftMag (List.replicate n (0 : ℝ)) = List.replicate (n / 2 + 1) 0 := by
  unfold rfftMag
  rw [List.length_replicate]
  apply List.eq_replicate.mpr
  constructor
  · simp
  · intro b hb
    obtain ⟨k, _, rfl⟩ := List.mem_map.mp hb
    rw [dftCoeff_replicate_zero]
    simp

lemma hanning_length (M : ℕ) : (hanning M).length = M := by
  unfold hanning
  split
  · next h => simp [h]
  · rw [List.length_map, List.length_range]

lemma spectralWindowed_zero3 : spectralWindowed [0, 0, 0] 4 = List.replicate 3 (0 : ℝ) := by
  have hseg : spectralSegment [0, 0, 0] 4 = [0, 0, 0] := by decide
  have hlen : (hanning (spectralSegment [0, 0, 0] 4).length).length = 3 := by
    rw [hseg]
    simp [hanning_length]
  obtain ⟨a, b, c, h3⟩ := List.length_eq_three.mp hlen
  unfold spectralWindowed
  rw [hseg] at h3 ⊢
  rw [h3]
  simp

/-- Witness for C7 at the nonempty all-zero buffer `[0, 0, 0]` (sample rate
4): its total spectral power is exactly 0, below the `1e-10` floor. -/
theorem spectral_stats_zero_power_witness :
    calculate_spectral_stats [0, 0, 0] 4 =
      some { centroid_hz := 0, bandwidth_hz := 0, rolloff_hz := 0, flatness := 0,
             dominant_freqs := [] } :=
  spectral_stats_zero_power [0, 0, 0] 4 (by simp) (by norm_num) (by
    unfold spectralTotalPower spectralSpectrum
    rw [spectralWindowed_zero3, rfftMag_replicate_zero]
    norm_num [List.replicate])

/-! ## Pipeline evaluation helpers (shared by the C1, C3 and C5 theorems) -/

/-- Reduction of `find_alignment_offset_by_transient` once both confidence
peaks are known to exist. -/
lemma align_eval (ref target : List ℚ) (sr : ℕ) (db : ℚ) (r t : ℚ)
    (href : peakOfFirstSecond ref sr = some r)
    (htar : peakOfFirstSecond target sr = some t) :
    find_alignment_offset_by_transient ref target sr db =
      some ((find_first_transient target db : ℤ) - (find_first_transient ref db : ℤ),
        min (min ((r : ℝ) / linearOfDb db) ((t : ℝ) / linearOfDb db)) 10 / 10) := by
  unfold find_alignment_offset_by_transient
  rw [href, htar]

/-- The offset component returned by the transient alignment is always
`first_transient(target) - first_transient(ref)`. -/
lemma find_alignment_offset_fst (ref target : List ℚ) (sr : ℕ) (db : ℚ) (p : ℤ × ℝ)
    (h : find_alignment_offset_by_transient ref target sr db = some p) :
    p.1 = (find_first_transient target db : ℤ) - find_first_transient ref db := by
  unfold find_alignment_offset_by_transient at h
  rcases hr : peakOfFirstSecond ref sr with _ | rp <;> rw [hr] at h
  · simp at h
  · rcases ht : peakOfFirstSecond target sr with _ | tp <;> rw [ht] at h
    · simp at h
    · simp only [Option.some.injEq] at h
      rw [← h]

/-- Embeds `normalizeStep` passes `data1`, `data2` and the offset through
unchanged. -/
lemma normalizeStep_fields {d1 d2 a1 a2 : List ℚ} {off : ℤ} {ac : ℝ} {norm : Bool}
    {st : PipelineState} (h : normalizeStep d1 d2 a1 a2 off ac norm = some st) :
    st.data1 = d1 ∧ st.data2 = d2 ∧ st.offset = off := by
  unfold normalizeStep at h
  split at h
  · rcases h1 : maxAbs a1 with _ | p1 <;> rw [h1] at h
    · simp at h
    · rcases h2 : maxAbs a2 with _ | p2 <;> rw [h2] at h
      · simp at h
      · simp only [Option.some.injEq] at h
        subst h
        exact ⟨rfl, rfl, rfl⟩
  · simp only [Option.some.injEq] at h
    subst h
    exact ⟨rfl, rfl, rfl⟩

/-! Concrete first-transient evaluations used by the C1/C3 examples. -/

lemma fft_c3a_neg60 : find_first_transient [1 / 200, 0, 0, 1] (-60) = 0 := by
  unfold find_first_transient
  rw [linearOfDb_neg60]
  simp only [findFirstTransientAux]
  rw [if_pos (by norm_num [abs_of_nonneg])]
  rfl

lemma fft_c3b_neg60 : find_first_transient [1, 0, 0, 0] (-60) = 0 := by
  unfold find_first_transient
  rw [linearOfDb_neg60]
  simp only [findFirstTransientAux]
  rw [if_pos (by norm_num [abs_of_nonneg])]
  rfl

lemma fft_c3a_neg40 : find_first_transient [1 / 200, 0, 0, 1] (-40) = 3 := by
  unfold find_first_transient
  rw [linearOfDb_neg40]
  simp only [findFirstTransientAux]
  rw [if_neg (by norm_num [abs_of_nonneg]), if_neg (by norm_num), if_neg (by norm_num),
    if_pos (by norm_num [abs_of_nonneg])]
  rfl

lemma fft_c3b_neg40 : find_first_transient [1, 0, 0, 0] (-40) = 0 := by
  unfold find_first_transient
  rw [linearOfDb_neg40]
  simp only [findFirstTransientAux]
  rw [if_pos (by norm_num [abs_of_nonneg])]
  rfl

lemma peak_c3a : peakOfFirstSecond [1 / 200, 0, 0, 1] 48000 = some 1 := by
  unfold peakOfFirstSecond maxAbs
  norm_num [List.foldl, max_def, abs_of_nonneg]

lemma peak_c3b : peakOfFirstSecond [1, 0, 0, 0] 48000 = some 1 := by
  unfold peakOfFirstSecond maxAbs
  norm_num [List.foldl, max_def, abs_of_nonneg]

/-- Transient alignment of the C3 example at the pipeline's actual (−60 dB)
threshold: both signals cross it at their first sample, offset 0. -/
lemma C3_align_neg60 :
    find_alignment_offset_by_transient [1 / 200, 0, 0, 1] [1, 0, 0, 0] 48000 (-60) =
      some (0, 1) := by
  have h := align_eval [1 / 200, 0, 0, 1] [1, 0, 0, 0] 48000 (-60) 1 1
    peak_c3a peak_c3b
  rw [fft_c3a_neg60, fft_c3b_neg60, linearOfDb_neg60] at h
  norm_num [min_def] at h
  exact h

/-- The same example at the −40 dB default: the reference's 0.005 first
sample is below 0.01, so its first transient moves to index 3, offset −3. -/
lemma C3_align_neg40 :
    find_alignment_offset_by_transient [1 / 200, 0, 0, 1] [1, 0, 0, 0] 48000 (-40) =
      some (-3, 1) := by
  have h := align_eval [1 / 200, 0, 0, 1] [1, 0, 0, 0] 48000 (-40) 1 1
    peak_c3a peak_c3b
  rw [fft_c3a_neg40, fft_c3b_neg40, linearOfDb_neg40] at h
  norm_num [min_def] at h
  exact h

lemma C3_pipeline_neg60 :
    comparePipeline [1 / 200, 0, 0, 1] [1, 0, 0, 0] 48000 true false false (-60) =
      some ⟨[1 / 200, 0, 0, 1], [1, 0, 0, 0], [1 / 200, 0, 0, 1], [1, 0, 0, 0], 0, 1⟩ := by
  unfold comparePipeline
  rw [if_pos rfl, C3_align_neg60]
  norm_num [normalizeStep]

lemma C3_pipeline_neg40 :
    comparePipeline [1 / 200, 0, 0, 1] [1, 0, 0, 0] 48000 true false false (-40) =
      some ⟨[1 / 200, 0, 0, 1], [1, 0, 0, 0], [1], [1], -3, 1⟩ := by
  unfold comparePipeline
  rw [if_pos rfl, C3_align_neg40]
  norm_num [normalizeStep]
  constructor <;> rfl

/-! ## Claim C3 (corrected): the pipeline's alignment threshold -/

/-- C3 counterexample — The claim says the pipeline's transient-alignment
threshold (default −40 dB) is independent of the overall silence threshold
option.  In `compare_audio` the silence threshold *is* passed as the
alignment threshold (line 702): on concrete buffers the resulting offset
differs between silence thresholds −60 dB (offset 0) and −40 dB
(offset −3). -/
theorem pipeline_alignment_depends_on_silence_threshold :
    (comparePipeline [1 / 200, 0, 0, 1] [1, 0, 0, 0] 48000 true false false (-60)).map
        PipelineState.offset ≠
      (comparePipeline [1 / 200, 0, 0, 1] [1, 0, 0, 0] 48000 true false false (-40)).map
        PipelineState.offset := by
  rw [C3_pipeline_neg60, C3_pipeline_neg40]
  simp

/-- C3 (amended) — The transient-alignment function's own threshold
parameter defaults to −40 dB, but `compare_audio` overrides it with the
overall silence threshold option: in every aligned comparison the computed
offset is the difference of first-transient indices *at the silence
threshold* `db`. -/
theorem pipeline_alignment_threshold_is_silence_threshold (d1 d2 : List ℚ)
    (sr : ℕ) (trim norm : Bool) (db : ℚ) (st : PipelineState)
    (h : comparePipeline d1 d2 sr true trim norm db = some st) :
    st.offset = (find_first_transient d2 db : ℤ) - find_first_transient d1 db := by
  unfold comparePipeline at h
  rw [if_pos rfl] at h
  rcases ha : find_alignment_offset_by_transient d1 d2 sr db with _ | ⟨off, ac⟩ <;>
    rw [ha] at h
  · simp at h
  · have hoff : off = (find_first_transient d2 db : ℤ) - find_first_transient d1 db :=
      find_alignment_offset_fst d1 d2 sr db (off, ac) ha
    dsimp only at h
    rw [← hoff]
    split at h
    · split at h
      · exact (normalizeStep_fields h).2.2
      · exact (normalizeStep_fields h).2.2
    · exact (normalizeStep_fields h).2.2

/-- Witness for C3's amended theorem at the concrete −60 dB example. -/
theorem pipeline_alignment_threshold_witness :
    (⟨[1 / 200, 0, 0, 1], [1, 0, 0, 0], [1 / 200, 0, 0, 1], [1, 0, 0, 0], 0, 1⟩ :
        PipelineState).offset =
      (find_first_transient [1, 0, 0, 0] (-60) : ℤ) -
        find_first_transient [1 / 200, 0, 0, 1] (-60) :=
  pipeline_alignment_threshold_is_silence_threshold [1 / 200, 0, 0, 1] [1, 0, 0, 0]
    48000 false false (-60) _ C3_pipeline_neg60

/-! ## Claim C1 (corrected): trim and the per-file analyzer inputs -/

lemma fft_c1a_neg60 : find_first_transient [1, 0] (-60) = 0 := by
  unfold find_first_transient
  rw [linearOfDb_neg60]
  simp only [findFirstTransientAux]
  rw [if_pos (by norm_num [abs_of_nonneg])]
  rfl

lemma fft_c1b_neg60 : find_first_transient [0, 0, 1, 0, 0] (-60) = 2 := by
  unfold find_first_transient
  rw [linearOfDb_neg60]
  simp only [findFirstTransientAux]
  rw [if_neg (by norm_num), if_neg (by norm_num), if_pos (by norm_num [abs_of_nonneg])]
  rfl

lemma peak_c1a : peakOfFirstSecond [1, 0] 48000 = some 1 := by
  unfold peakOfFirstSecond maxAbs
  norm_num [List.foldl, max_def, abs_of_nonneg]

lemma peak_c1b : peakOfFirstSecond [0, 0, 1, 0, 0] 48000 = some 1 := by
  unfold peakOfFirstSecond maxAbs
  norm_num [List.foldl, max_def, abs_of_nonneg]

lemma C1_align :
    find_alignment_offset_by_transient [1, 0] [0, 0, 1, 0, 0] 48000 (-60) = some (2, 1) := by
  have h := align_eval [1, 0] [0, 0, 1, 0, 0] 48000 (-60) 1 1 peak_c1a peak_c1b
  rw [fft_c1a_neg60, fft_c1b_neg60, linearOfDb_neg60] at h
  norm_num [min_def] at h
  exact h

/-- With `--trim` and a positive offset, the pipeline replaces `data2` — the
file-2 buffer fed to the per-file analyzers — by `data2[offset:offset+len1]`. -/
lemma C1_pipeline :
    comparePipeline [1, 0] [0, 0, 1, 0, 0] 48000 true true false (-60) =
      some ⟨[1, 0], [1, 0], [1, 0], [1, 0], 2, 1⟩ := by
  unfold comparePipeline
  rw [if_pos rfl, C1_align]
  norm_num [normalizeStep]
  refine ⟨rfl, ?_, ?_⟩ <;> rfl

/-- C1 counterexample — The claim says enabling trim never changes the
inputs to the per-file analyzers.  On the concrete pair below
(offset 2 > 0, trim on), the buffer used for file 2's per-file statistics is
`[1, 0]`, not the original `[0, 0, 1, 0, 0]` (source line 732:
`data2 = data2[offset : offset + target_len]`). -/
theorem trim_changes_per_file_input :
    (comparePipeline [1, 0] [0, 0, 1, 0, 0] 48000 true true false (-60)).map
        PipelineState.data2 ≠ some [0, 0, 1, 0, 0] := by
  rw [C1_pipeline]
  simp

/-- C1 (amended) — File 1's per-file analyzer input is always the
original buffer.  File 2's per-file input is the original buffer whenever
trim is off, or the offset is not positive, or alignment is off; but when
alignment and trim are on and the offset is positive it is replaced by
`data2[offset : offset + len(data1)]`. -/
theorem trim_updates_data2 (d1 d2 : List ℚ) (sr : ℕ) (align trim norm : Bool)
    (db : ℚ) (st : PipelineState)
    (h : comparePipeline d1 d2 sr align trim norm db = some st) :
    st.data1 = d1 ∧
      ((trim = false ∨ st.offset ≤ 0 ∨ align = false) → st.data2 = d2) ∧
      (align = true → trim = true → 0 < st.offset →
        st.data2 = (d2.drop st.offset.toNat).take d1.length) := by
  unfold comparePipeline at h
  cases align with
  | false =>
    rw [if_neg (by simp)] at h
    obtain ⟨hd1, hd2, _⟩ := normalizeStep_fields h
    exact ⟨hd1, fun _ => hd2, fun hcontra => by simp at hcontra⟩
  | true =>
    rw [if_pos rfl] at h
    rcases ha : find_alignment_offset_by_transient d1 d2 sr db with _ | ⟨off, ac⟩ <;>
      rw [ha] at h
    · simp at h
    · dsimp only at h
      cases trim with
      | false =>
        rw [if_neg (by simp)] at h
        obtain ⟨hd1, hd2, _⟩ := normalizeStep_fields h
        exact ⟨hd1, fun _ => hd2, fun _ htrim _ => by simp at htrim⟩
      | true =>
        rw [if_pos rfl] at h
        by_cases hpos : (0 : ℤ) < off
        · rw [if_pos hpos] at h
          obtain ⟨hd1, hd2, hoff⟩ := normalizeStep_fields h
          refine ⟨hd1, ?_, ?_⟩
          · rintro (hc | hc | hc)
            · exact absurd hc (by simp)
            · rw [hoff] at hc
              omega
            · exact absurd hc (by simp)
          · intro _ _ _
            rw [hd2, hoff]
        · rw [if_neg hpos] at h
          obtain ⟨hd1, hd2, hoff⟩ := normalizeStep_fields h
          refine ⟨hd1, fun _ => hd2, ?_⟩
          intro _ _ hlt
          rw [hoff] at hlt
          exact absurd hlt hpos

/-- Witness for C1's amended theorem at the concrete trimmed example. -/
theorem trim_updates_data2_witness :
    (⟨[1, 0], [1, 0], [1, 0], [1, 0], 2, 1⟩ : PipelineState).data2 =
      (([0, 0, 1, 0, 0] : List ℚ).drop
          ((⟨[1, 0], [1, 0], [1, 0], [1, 0], 2, 1⟩ : PipelineState).offset.toNat)).take
        ([1, 0] : List ℚ).length :=
  (trim_updates_data2 [1, 0] [0, 0, 1, 0, 0] 48000 true true false (-60) _
    C1_pipeline).2.2 rfl rfl (by norm_num)

/-! ## Claim C5 (corrected): the envelope-correlation window -/

/-- With alignment, trim and normalization all off, comparing a buffer with
itself passes it through unchanged. -/
lemma comparePipeline_noalign_self (d : List ℚ) (sr : ℕ) (db : ℚ) :
    comparePipeline d d sr false false false db = some ⟨d, d, d, d, 0, 0⟩ := by
  unfold comparePipeline normalizeStep
  simp

lemma getD_map_range {β : Type} (f : ℕ → β) (n i : ℕ) (d : β) (h : i < n) :
    ((List.range n).map f).getD i d = f i := by
  rw [List.getD_eq_getElem?_getD, List.getElem?_map, List.getElem?_range h]
  rfl

/-- Pearson correlation of a one-element list with itself is 0 (the
denominator is 0, below the floor). -/
lemma corr_singleton (x : ℝ) : calculate_correlation [x] [x] = 0 := by
  unfold calculate_correlation
  have hm : meanR [x] = x := by simp [meanR]
  simp [hm]

/-- Concrete 20-sample test buffer (unit impulse at index 9) for the C5
counterexample. -/
def envDemo : List ℚ := List.replicate 9 0 ++ 1 :: List.replicate 10 0

lemma envDemo_abs : envDemo.map (fun x => |x|) = envDemo := by decide

set_option maxRecDepth 20000 in
lemma envDemo_maxf10 :
    maximum_filter1d envDemo 10 =
      List.replicate 5 0 ++ List.replicate 10 1 ++ List.replicate 5 0 := by
  decide

set_option maxRecDepth 20000 in
lemma envDemo_maxf20 : maximum_filter1d envDemo 20 = List.replicate 20 1 := by
  decide

/-- Sum of a list of ones is its length. -/
lemma sum_eq_length_of_all_ones (l : List ℚ) (h1 : ∀ x ∈ l, x = 1) :
    l.sum = l.length := by
  induction l with
  | nil => simp
  | cons x xs ih =>
    rw [List.sum_cons, h1 x (by simp), ih fun y hy => h1 y (by simp [hy]),
      List.length_cons]
    push_cast
    ring

/-- The 10 ms-window envelope of the demo buffer. -/
lemma envDemo_env10 : calculate_envelope envDemo 1000 10 = [0, 1] := by
  unfold calculate_envelope
  rw [show (Int.floor ((10 : ℚ) * ((1000 : ℕ) : ℚ) / 1000)).toNat = 10 from by
    norm_num
    decide]
  dsimp only
  rw [envDemo_abs, envDemo_maxf10]
  unfold decimate
  rw [show (uniform_filter1d
      (List.replicate 5 0 ++ List.replicate 10 1 ++ List.replicate 5 0) 10).length = 20
    from by simp [uniform_filter1d]]
  rw [show (20 + 10 - 1) / 10 = 2 from rfl, show List.range 2 = [0, 1] from rfl]
  simp only [List.map_cons, List.map_nil]
  unfold uniform_filter1d
  rw [getD_map_range _ _ (0 * 10) 0 (by simp), getD_map_range _ _ (1 * 10) 0 (by simp)]
  simp only [List.cons.injEq, and_true]
  constructor
  · rw [div_eq_zero_iff]
    left
    exact List.sum_eq_zero (by decide)
  · rw [div_eq_one_iff_eq (by norm_num)]
    rw [sum_eq_length_of_all_ones _ (by decide)]
    simp

/-- The 20 ms-window envelope of the demo buffer collapses to one sample. -/
lemma envDemo_env20 : calculate_envelope envDemo 1000 20 = [1] := by
  unfold calculate_envelope
  rw [show (Int.floor ((20 : ℚ) * ((1000 : ℕ) : ℚ) / 1000)).toNat = 20 from by
    norm_num
    decide]
  dsimp only
  rw [envDemo_abs, envDemo_maxf20]
  unfold decimate
  rw [show (uniform_filter1d (List.replicate 20 (1 : ℚ)) 20).length = 20
    from by simp [uniform_filter1d]]
  rw [show (20 + 20 - 1) / 20 = 1 from rfl, show List.range 1 = [0] from rfl]
  simp only [List.map_cons, List.map_nil]
  unfold uniform_filter1d
  rw [getD_map_range _ _ (0 * 20) 0 (by simp)]
  simp only [List.cons.injEq, and_true]
  rw [div_eq_one_iff_eq (by norm_num)]
  rw [sum_eq_length_of_all_ones _ (by decide)]
  simp

/-- C5 counterexample — The claim says the envelope correlation is the
Pearson correlation of the 20 ms-window envelopes of the aligned views.  On
a concrete self-comparison the pipeline (which uses the 10 ms default of
`calculate_envelope`, source lines 383 and 766–767) yields correlation 1,
while the 20 ms-window envelopes (each collapsing to a single sample) have
correlation 0. -/
theorem envelope_corr_not_20ms :
    (comparePipeline envDemo envDemo 1000 false false false (-60)).map
        (fun st => (compareCorrelations st 1000).2.1) ≠
      (comparePipeline envDemo envDemo 1000 false false false (-60)).map
        (fun st => calculate_correlation
          ((calculate_envelope st.data1_aligned 1000 20).map fun x : ℚ => (x : ℝ))
          ((calculate_envelope st.data2_aligned 1000 20).map fun x : ℚ => (x : ℝ))) := by
  rw [comparePipeline_noalign_self]
  simp only [Option.map_some', ne_eq, Option.some.injEq]
  unfold compareCorrelations
  dsimp only
  rw [envDemo_env10, envDemo_env20]
  rw [show ([0, 1] : List ℚ).map (fun x : ℚ => (x : ℝ)) = [0, 1] from by norm_num,
    show ([1] : List ℚ).map (fun x : ℚ => (x : ℝ)) = [1] from by norm_num]
  rw [pearson_self [0, 1] (by simp [centeredSumSq, meanR]; norm_num), corr_singleton]
  norm_num

/-- C5 (amended) — The envelope correlation computed by the comparison is
the Pearson correlation of the envelopes of the two aligned views extracted
with the *10 ms default* window of `calculate_envelope`. -/
theorem envelope_corr_uses_10ms_window (d1 d2 : List ℚ) (sr : ℕ)
    (align trim norm : Bool) (db : ℚ) :
    (comparePipeline d1 d2 sr align trim norm db).map
        (fun st => (compareCorrelations st sr).2.1) =
      (comparePipeline d1 d2 sr align trim norm db).map
        (fun st => calculate_correlation
          ((calculate_envelope st.data1_aligned sr 10).map fun x : ℚ => (x : ℝ))
          ((calculate_envelope st.data2_aligned sr 10).map fun x : ℚ => (x : ℝ))) := rfl

end

end CompareAudio
